import Mathlib

/-!
Verification development for the SAP AI provider factory
(`src/sap-ai-provider.ts`).

The TypeScript module is embedded shallowly: every effect of the source is
made explicit.  `JSON.parse` on the service key, the ambient `fetch`
function, the base64 encoder and the process environment become function
or `Option` parameters; the number of fetch invocations, OAuth exchanges
and environment reads performed during provider creation is recorded in
the returned outcome so that "no network call happens" is a provable
statement.  Thrown `Error`s become an `Err` sum, classified by throw site
following the error taxonomy of the module (configuration errors,
authentication errors, invalid-usage errors).
-/

/-- Error taxonomy of the module: JSON / environment configuration
failures, OAuth endpoint failures, and constructor-misuse failures.
Each carries the human-readable message the source throws. -/
inductive Err where
  | configurationError : String → Err
  | authenticationError : String → Err
  | invalidUsageError : String → Err
deriving DecidableEq, Repr

/-- Values stored in a settings bag (the embedding only needs them to be
comparable; strings, numbers and booleans cover the model parameters). -/
inductive JValue where
  | str : String → JValue
  | num : Int → JValue
  | bool : Bool → JValue
deriving DecidableEq, Repr

/-- Call settings (`SAPAISettings` from `sap-ai-chat-settings`): a bag of
top-level knobs plus an optional `modelParams` sub-mapping.  Both levels
are association lists read through `List.lookup`. -/
structure SAPAISettings where
  top : List (String × JValue)
  modelParams : Option (List (String × JValue))
deriving DecidableEq, Repr

/-- The `serviceurls` object inside a service key. -/
structure ServiceUrls where
  AI_API_URL : String
deriving DecidableEq, Repr

/-- SAP AI Core service key (`SAPAIServiceKey` in the source). -/
structure SAPAIServiceKey where
  serviceurls : ServiceUrls
  clientid : String
  clientsecret : String
  url : String
  identityzone : Option String := none
  identityzoneid : Option String := none
  appname : Option String := none
  credential_type : Option String := none
deriving DecidableEq, Repr

/-- The single HTTP request this module ever issues (the OAuth token
POST built in `getOAuthToken`). -/
structure FetchRequest where
  url : String
  method : String
  contentType : String
  authorization : String
  body : String
deriving DecidableEq, Repr

/-- The response the fetch collaborator hands back: `ok`/`status`/
`statusText`, the text body read on failure, and the `access_token`
field of the JSON body read on success. -/
structure FetchResponse where
  ok : Bool
  status : Nat
  statusText : String
  bodyText : String
  access_token : String
deriving DecidableEq, Repr

/-- Provider settings bag (`SAPAIProviderSettings` in the source).
`serviceKey` is a JSON string or an already-parsed object; `fetch` is the
optional transport override. -/
structure SAPAIProviderSettings where
  serviceKey : Option (String ⊕ SAPAIServiceKey) := none
  token : Option String := none
  deploymentId : Option String := none
  resourceGroup : Option String := none
  baseURL : Option String := none
  completionPath : Option String := none
  headers : Option (List (String × String)) := none
  fetch : Option (FetchRequest → FetchResponse) := none
  defaultSettings : Option SAPAISettings := none

/-- Settings of `createSAPAIProviderSync`: the provider settings without
`serviceKey` and with a mandatory `token`. -/
structure SyncProviderSettings where
  token : String
  deploymentId : Option String := none
  resourceGroup : Option String := none
  baseURL : Option String := none
  completionPath : Option String := none
  headers : Option (List (String × String)) := none
  fetch : Option (FetchRequest → FetchResponse) := none
  defaultSettings : Option SAPAISettings := none

/-- What the external chat-model collaborator receives: the model id, the
merged settings, and the request context `\x7b provider, baseURL, headers,
fetch \x7d`.  The header factory is a thunk returning the header object,
viewed as a lookup map. -/
structure SAPAIChatLanguageModel where
  modelId : String
  settings : SAPAISettings
  provider : String
  baseURL : String
  headers : Unit → String → Option String
  fetch : Option (FetchRequest → FetchResponse)

/-- A provider handle from `createSAPAIProvider` / `createSAPAIProviderSync`:
callable (the `Bool` argument records whether the call uses constructor
syntax, i.e. whether `new.target` is set) and a `chat` method. -/
structure ProviderModel where
  call : Bool → String → Option SAPAISettings → Except Err SAPAIChatLanguageModel
  chat : String → Option SAPAISettings → SAPAIChatLanguageModel

/-- The default zero-configuration handle: its callable form and `chat`
method read the `SAP_AI_TOKEN` environment variable (the `Option String`
argument) at invocation time. -/
structure DefaultSAPAIProvider where
  call : Bool → Option String → String → Option SAPAISettings → Except Err SAPAIChatLanguageModel
  chat : Option String → String → Option SAPAISettings → Except Err SAPAIChatLanguageModel

/-- Outcome of the credential-resolution step, with counters for the
effects it performed. -/
structure AuthOutcome where
  result : Except Err String
  oauthCalls : Nat
  fetchCalls : Nat
  envReads : Nat

/-- Outcome of one provider-creation call.  Besides the result it records
the locals `baseURL` and `authToken` of the source (absent when the run
failed before computing them) and how many OAuth exchanges, fetch
invocations and environment reads happened. -/
structure CreateOutcome where
  result : Except Err ProviderModel
  resolvedBaseURL : Option String
  authToken : Option String
  oauthCalls : Nat
  fetchCalls : Nat
  envReads : Nat

/-- Left-biased choice on options, the semantics of JavaScript object
spread and of `??` at the level of a single key. -/
def optOr {α : Type} (a b : Option α) : Option α :=
  match a with
  | some v => some v
  | none => b

/-- JavaScript truthiness of an optional string: `undefined` and the
empty string are falsy. -/
def truthyStr : Option String → Bool
  | none => false
  | some s => !s.isEmpty

/-- JavaScript truthiness of `options.serviceKey`: an object is always
truthy, a string is truthy when non-empty. -/
def truthyServiceKey : Option (String ⊕ SAPAIServiceKey) → Bool
  | none => false
  | some (.inl s) => !s.isEmpty
  | some (.inr _) => true

/-- `withoutTrailingSlash` from `provider-utils`:
`url?.replace(/\/$/, "")`, removing one trailing slash if present
(expressed on the character list of the string). -/
def withoutTrailingSlash : Option String → Option String
  | none => none
  | some url =>
    some (if url.data.getLast? = some (Char.ofNat 47) then String.mk url.data.dropLast else url)

/-- Modelled collaborator: `loadApiKey` from the `provider-utils`
dependency, called with `apiKey: undefined` and environment variable
`SAP_AI_TOKEN`; a missing variable is a configuration error raised at the
point of use. -/
def loadApiKey (env : Option String) : Except Err String :=
  match env with
  | some apiKey => .ok apiKey
  | none => .error (.configurationError
      "SAP AI Core API key is missing. Pass it using the apiKey parameter or the SAP_AI_TOKEN environment variable.")

/-- JavaScript object spread `\x7b ...base, ...override \x7d` on string-keyed
records, as an association list whose `List.lookup` semantics is
override-wins. -/
def spreadMerge (base override : List (String × JValue)) : List (String × JValue) :=
  base.filter (fun p => (override.lookup p.1).isNone) ++ override

/-- Decidable disjointness of the key sets of two association lists. -/
def keysDisjoint (a b : List (String × JValue)) : Bool :=
  a.all (fun p => (b.lookup p.1).isNone)

/-- The empty settings bag (`\x7b\x7d`, the default for an omitted settings
argument). -/
def emptySettings : SAPAISettings :=
  { top := [], modelParams := none }

/-- The settings merge performed inside `createModel` (lines 436-443 of
the source, duplicated at 492-499): top-level spread of base under
override, with `modelParams` rebuilt as its own spread of the two
sub-mappings (absent sub-mappings read as `\x7b\x7d`). -/
def mergeSettings (base override : SAPAISettings) : SAPAISettings :=
  { top := spreadMerge base.top override.top
    modelParams := some (spreadMerge (base.modelParams.getD []) (override.modelParams.getD [])) }

/-- Lookup of a top-level settings key. -/
def topGet (s : SAPAISettings) (k : String) : Option JValue :=
  s.top.lookup k

/-- Lookup of a model parameter (an absent `modelParams` reads as the
empty mapping). -/
def mpGet (s : SAPAISettings) (k : String) : Option JValue :=
  (s.modelParams.getD []).lookup k

/-- Extensional equality of settings bags: same presence of the
`modelParams` sub-mapping and same value at every key of both levels. -/
def SettingsEquiv (a b : SAPAISettings) : Prop :=
  a.modelParams.isSome = b.modelParams.isSome
    ∧ (∀ k, topGet a k = topGet b k)
    ∧ (∀ k, mpGet a k = mpGet b k)

/-- The OAuth token request built by `getOAuthToken`: POST to
`\x7burl\x7d/oauth/token` with Basic credentials and the client-credentials
grant body.  `b64` is the base64 encoder (`Buffer`/`btoa`). -/
def oauthRequest (serviceKey : SAPAIServiceKey) (b64 : String → String) : FetchRequest :=
  { url := serviceKey.url ++ "/oauth/token"
    method := "POST"
    contentType := "application/x-www-form-urlencoded"
    authorization := "Basic " ++ b64 (serviceKey.clientid ++ ":" ++ serviceKey.clientsecret)
    body := "grant_type=client_credentials" }

/-- The failure message thrown by `getOAuthToken` on a non-success
response: status code, status text, then the response body text. -/
def oauthFailMsg (response : FetchResponse) : String :=
  "Failed to get OAuth access token: " ++ toString response.status ++ " "
    ++ response.statusText ++ "\n" ++ response.bodyText

/-- `getOAuthToken` (lines 269-298): one fetch of the token request; a
non-ok response is an authentication error carrying status, status text
and body; an ok response yields the `access_token` field.  The second
component counts fetch invocations (always exactly one). -/
def getOAuthToken (serviceKey : SAPAIServiceKey)
    (fetchFn : FetchRequest → FetchResponse) (b64 : String → String) :
    Except Err String × Nat :=
  let response := fetchFn (oauthRequest serviceKey b64)
  if !response.ok then
    (.error (.authenticationError (oauthFailMsg response)), 1)
  else
    (.ok response.access_token, 1)

/-- Service-key parsing step of `createSAPAIProvider` (lines 392-403):
skipped entirely when `options.serviceKey` is falsy (absent or the empty
string); a truthy string is parsed by the `parseJSON` collaborator
(`JSON.parse`), failing with the fixed configuration error; an object is
taken as-is. -/
def parseServiceKeyStep (serviceKey : Option (String ⊕ SAPAIServiceKey))
    (parseJSON : String → Option SAPAIServiceKey) :
    Except Err (Option SAPAIServiceKey) :=
  match serviceKey with
  | none => .ok none
  | some (.inl s) =>
    if s.isEmpty then .ok none
    else
      match parseJSON s with
      | some parsed => .ok (some parsed)
      | none => .error (.configurationError "Invalid service key JSON format")
  | some (.inr parsed) => .ok (some parsed)

/-- Base-URL resolution of `createSAPAIProvider` (lines 405-414): an
explicit override (trailing slash stripped) wins in both branches;
otherwise the service key's `AI_API_URL` with `/v2`, otherwise the
hard-coded production default. -/
def resolveBaseURL (parsedServiceKey : Option SAPAIServiceKey)
    (baseURLOpt : Option String) : String :=
  match parsedServiceKey with
  | some serviceKey =>
    (withoutTrailingSlash baseURLOpt).getD (serviceKey.serviceurls.AI_API_URL ++ "/v2")
  | none =>
    (withoutTrailingSlash baseURLOpt).getD
      "https://api.ai.prod.eu-central-1.aws.ml.hana.ondemand.com/v2"

/-- Credential resolution of `createSAPAIProvider` (lines 416-429): a
truthy explicit token is used verbatim; otherwise a parsed service key
triggers the OAuth exchange; otherwise the environment variable is read
through `loadApiKey`. -/
def resolveAuth (tokenOpt : Option String) (parsedServiceKey : Option SAPAIServiceKey)
    (fetchFn : FetchRequest → FetchResponse) (b64 : String → String)
    (env : Option String) : AuthOutcome :=
  if truthyStr tokenOpt then
    { result := .ok (tokenOpt.getD ""), oauthCalls := 0, fetchCalls := 0, envReads := 0 }
  else
    match parsedServiceKey with
    | some serviceKey =>
      let g := getOAuthToken serviceKey fetchFn b64
      { result := g.1, oauthCalls := 1, fetchCalls := g.2, envReads := 0 }
    | none =>
      { result := loadApiKey env, oauthCalls := 0, fetchCalls := 0, envReads := 1 }

/-- Completion-URL construction inside `createModel` (lines 447-450): a
supplied `completionPath` (even the empty string) is concatenated onto
the base URL verbatim; otherwise the deployment-scoped path is built. -/
def resolveCompletionURL (baseURL : String) (completionPath : Option String)
    (deploymentId : String) : String :=
  match completionPath with
  | some p => baseURL ++ p
  | none => baseURL ++ "/inference/deployments/" ++ deploymentId ++ "/v2/completion"

/-- The three generated headers (lines 451-455). -/
def generatedHeaders (authToken resourceGroup : String) : List (String × String) :=
  [("Authorization", "Bearer " ++ authToken),
   ("Content-Type", "application/json"),
   ("ai-resource-group", resourceGroup)]

/-- The header object produced on each invocation of the header factory:
the generated headers spread under the custom headers, so a custom entry
wins on any key collision. -/
def headerMap (authToken resourceGroup : String) (custom : List (String × String)) :
    String → Option String :=
  fun k => optOr (custom.lookup k) ((generatedHeaders authToken resourceGroup).lookup k)

/-- The `createModel` closure of `createSAPAIProvider` (lines 435-459),
closing over the resolved base URL and token: merges the provider-level
default settings under the per-call settings and hands the collaborator
the request context. -/
def createModelFn (options : SAPAIProviderSettings) (baseURL authToken : String) :
    String → SAPAISettings → SAPAIChatLanguageModel :=
  fun modelId settings =>
    { modelId := modelId
      settings := mergeSettings (options.defaultSettings.getD emptySettings) settings
      provider := "sap-ai"
      baseURL := resolveCompletionURL baseURL options.completionPath
        (options.deploymentId.getD "d65d81e7c077e583")
      headers := fun _ => headerMap authToken (options.resourceGroup.getD "default")
        (options.headers.getD [])
      fetch := options.fetch }

/-- The provider façade of `createSAPAIProvider` (lines 461-474): the
callable form guards against constructor invocation, `chat` is
`createModel` itself; an omitted settings argument defaults to `\x7b\x7d`. -/
def buildProvider (options : SAPAIProviderSettings) (baseURL authToken : String) :
    ProviderModel :=
  { call := fun isNew modelId settings =>
      if isNew then
        .error (.invalidUsageError
          "The SAP AI provider function cannot be called with the new keyword.")
      else
        .ok (createModelFn options baseURL authToken modelId (settings.getD emptySettings))
    chat := fun modelId settings =>
      createModelFn options baseURL authToken modelId (settings.getD emptySettings) }

/-- `createSAPAIProvider` (lines 385-475): parse the service key, resolve
the base URL, resolve the credentials, then build the façade.
`parseJSON`, `globalFetch`, `b64` and `env` are the collaborators the
source reaches through `JSON.parse`, the ambient `fetch`, `Buffer`/`btoa`
and `process.env`. -/
def createSAPAIProvider (options : SAPAIProviderSettings)
    (parseJSON : String → Option SAPAIServiceKey)
    (globalFetch : FetchRequest → FetchResponse) (b64 : String → String)
    (env : Option String) : CreateOutcome :=
  match parseServiceKeyStep options.serviceKey parseJSON with
  | .error e =>
    { result := .error e, resolvedBaseURL := none, authToken := none
      oauthCalls := 0, fetchCalls := 0, envReads := 0 }
  | .ok parsedServiceKey =>
    let baseURL := resolveBaseURL parsedServiceKey options.baseURL
    let a := resolveAuth options.token parsedServiceKey
      (options.fetch.getD globalFetch) b64 env
    match a.result with
    | .error e =>
      { result := .error e, resolvedBaseURL := some baseURL, authToken := none
        oauthCalls := a.oauthCalls, fetchCalls := a.fetchCalls, envReads := a.envReads }
    | .ok authToken =>
      { result := .ok (buildProvider options baseURL authToken)
        resolvedBaseURL := some baseURL, authToken := some authToken
        oauthCalls := a.oauthCalls, fetchCalls := a.fetchCalls, envReads := a.envReads }

/-- `createSAPAIProviderSync` (lines 481-530): same construction with a
mandatory explicit token and no service-key branch. -/
def createSAPAIProviderSync (options : SyncProviderSettings) : ProviderModel :=
  let baseURL := (withoutTrailingSlash options.baseURL).getD
    "https://api.ai.prod.eu-central-1.aws.ml.hana.ondemand.com/v2"
  let deploymentId := options.deploymentId.getD "d65d81e7c077e583"
  let resourceGroup := options.resourceGroup.getD "default"
  let createModel := fun (modelId : String) (settings : SAPAISettings) =>
    { modelId := modelId
      settings := mergeSettings (options.defaultSettings.getD emptySettings) settings
      provider := "sap-ai"
      baseURL := resolveCompletionURL baseURL options.completionPath deploymentId
      headers := fun _ => headerMap options.token resourceGroup (options.headers.getD [])
      fetch := options.fetch : SAPAIChatLanguageModel }
  { call := fun isNew modelId settings =>
      if isNew then
        .error (.invalidUsageError
          "The SAP AI provider function cannot be called with the new keyword.")
      else
        .ok (createModel modelId (settings.getD emptySettings))
    chat := fun modelId settings => createModel modelId (settings.getD emptySettings) }

/-- The message thrown by the default instance when invoked without the
environment token. -/
def defaultMissingTokenMsg : String :=
  "SAP_AI_TOKEN environment variable is required for default instance. Either set SAP_AI_TOKEN or use createSAPAIProvider(\x7b serviceKey: \"...\" \x7d) instead."

/-- The `createModel` of `createDefaultSAPAI` (lines 537-548): read
`SAP_AI_TOKEN` at invocation time; a falsy value is a configuration
error, otherwise delegate to a fresh synchronous provider through a
normal (non-constructor) call. -/
def defaultCreateModel (env : Option String) (modelId : String)
    (settings : Option SAPAISettings) : Except Err SAPAIChatLanguageModel :=
  if truthyStr env then
    (createSAPAIProviderSync { token := env.getD "" }).call false modelId settings
  else
    .error (.configurationError defaultMissingTokenMsg)

/-- The default provider handle built by `createDefaultSAPAI`
(lines 536-557).  Its callable form performs no `new.target` check: the
constructor-syntax flag is ignored. -/
def createDefaultSAPAI : DefaultSAPAIProvider :=
  { call := fun _isNew env modelId settings => defaultCreateModel env modelId settings
    chat := defaultCreateModel }

/-- Module-load evaluation of `export const sapai = createDefaultSAPAI()`
(line 559), as a function of the environment at load time: the
construction itself reads nothing and never throws. -/
def sapaiModuleEval : Option String → Except Err DefaultSAPAIProvider :=
  fun _env => .ok createDefaultSAPAI

/-! Concrete inputs used by witnesses and counterexamples. -/

/-- A well-formed service key. -/
def skExample : SAPAIServiceKey :=
  { serviceurls := { AI_API_URL := "https://api.example.com" }
    clientid := "cid", clientsecret := "csec", url := "https://auth.example.com" }

/-- A successful token-endpoint response. -/
def okTokenResponse : FetchResponse :=
  { ok := true, status := 200, statusText := "OK", bodyText := "", access_token := "oauth-token" }

/-- A JSON parser that rejects every string (as `JSON.parse` does on
malformed input, including the empty string). -/
def pj0 : String → Option SAPAIServiceKey := fun _ => none

/-- A fetch always answering with the successful token response. -/
def gf0 : FetchRequest → FetchResponse := fun _ => okTokenResponse

/-- A fetch always answering 401 Unauthorized. -/
def gf401 : FetchRequest → FetchResponse := fun _ =>
  { ok := false, status := 401, statusText := "Unauthorized", bodyText := "nope"
    access_token := "" }

/-- A base64 encoder stand-in (its output is never inspected). -/
def b640 : String → String := fun s => s

/-- The hard-coded default production base URL. -/
def defBase : String := "https://api.ai.prod.eu-central-1.aws.ml.hana.ondemand.com/v2"

/-- Settings with only an explicit token. -/
def cwTokenOpts : SAPAIProviderSettings := { token := some "tok" }

/-- Settings with an explicit token and a completion-path override. -/
def cwPathOpts : SAPAIProviderSettings :=
  { token := some "tok", completionPath := some "/v2/completion" }

/-- Settings with an explicit token and a custom Authorization header. -/
def cwHdrOpts : SAPAIProviderSettings :=
  { token := some "tok", headers := some [("Authorization", "custom")] }

/-- Settings with an explicit token and a base URL carrying a trailing
slash. -/
def slashOpts : SAPAIProviderSettings :=
  { token := some "tok", baseURL := some "https://example.com/" }

/-- Settings with an explicit token and an object service key. -/
def skObjOpts : SAPAIProviderSettings :=
  { token := some "tok", serviceKey := some (.inr skExample) }

/-- Settings with an object service key and no token. -/
def skObjNoTokOpts : SAPAIProviderSettings := { serviceKey := some (.inr skExample) }

/-- Settings with an empty-string token next to a valid object service
key. -/
def emptyTokenOpts : SAPAIProviderSettings :=
  { token := some "", serviceKey := some (.inr skExample) }

/-- Settings whose service key is a malformed (non-empty) JSON string. -/
def badJsonOpts : SAPAIProviderSettings := { serviceKey := some (.inl "notjson") }

/-- Settings whose service key is the empty string. -/
def emptyKeyOpts : SAPAIProviderSettings := { serviceKey := some (.inl "") }

/-- Synchronous-provider settings with only a token. -/
def syncOpts0 : SyncProviderSettings := { token := "tok" }

/-- A base settings bag for the merge witness. -/
def mwBase : SAPAISettings :=
  { top := [("topA", .num 1)], modelParams := some [("temperature", .num 7)] }

/-- An override settings bag for the merge witness, key-disjoint from
`mwBase` at both levels. -/
def mwOverride : SAPAISettings :=
  { top := [("topB", .str "x")], modelParams := some [("maxTokens", .num 100)] }

/-! Helper lemmas. -/

theorem optOr_none {α : Type} (a : Option α) : optOr a none = a := by
  cases a <;> rfl

theorem optOr_absorb {α : Type} (a b : Option α) : optOr a (optOr a b) = optOr a b := by
  cases a <;> rfl

/-- Lookup semantics of the spread merge: the override side wins at every
key. -/
theorem lookup_spreadMerge (b o : List (String × JValue)) (k : String) :
    (spreadMerge b o).lookup k = optOr (o.lookup k) (b.lookup k) := by
  induction b with
  | nil => simp [spreadMerge, List.lookup, optOr_none]
  | cons p b ih =>
    rcases p with ⟨pk, pv⟩
    cases hv : o.lookup pk with
    | none =>
      by_cases hk : k = pk
      · subst hk
        simp [spreadMerge, List.filter_cons, hv, List.lookup, optOr]
      · have hbeq : (k == pk) = false := beq_false_of_ne hk
        simpa [spreadMerge, List.filter_cons, hv, List.lookup, hbeq] using ih
    | some v =>
      by_cases hk : k = pk
      · subst hk
        simpa [spreadMerge, List.filter_cons, hv, List.lookup, optOr] using ih
      · have hbeq : (k == pk) = false := beq_false_of_ne hk
        simpa [spreadMerge, List.filter_cons, hv, List.lookup, hbeq] using ih

/-- A parsing step that produced a credential bundle started from a
truthy `serviceKey` input. -/
theorem parse_ok_some_truthy (skOpt : Option (String ⊕ SAPAIServiceKey))
    (pj : String → Option SAPAIServiceKey) (k : SAPAIServiceKey)
    (h : parseServiceKeyStep skOpt pj = .ok (some k)) : truthyServiceKey skOpt = true := by
  match skOpt with
  | none => simp [parseServiceKeyStep] at h
  | some (.inl s) =>
    by_cases he : s.isEmpty
    · simp [parseServiceKeyStep, he] at h
    · simp [truthyServiceKey, he]
  | some (.inr parsed) => simp [truthyServiceKey]

/-- A parsing step that produced no credential bundle started from a
falsy `serviceKey` input. -/
theorem parse_ok_none_falsy (skOpt : Option (String ⊕ SAPAIServiceKey))
    (pj : String → Option SAPAIServiceKey)
    (h : parseServiceKeyStep skOpt pj = .ok none) : truthyServiceKey skOpt = false := by
  match skOpt with
  | none => simp [truthyServiceKey]
  | some (.inl s) =>
    by_cases he : s.isEmpty
    · simp [truthyServiceKey, he]
    · cases hp : pj s <;> simp [parseServiceKeyStep, he, hp] at h
  | some (.inr parsed) => simp [parseServiceKeyStep] at h

/-! Claim theorems. -/

/-- C1 (counterexample): with an empty-string token supplied next to a
valid object service key, the OAuth exchange function IS invoked (one
call) and the resolved token is the OAuth response's `access_token`, not
the supplied token — the claim's "token supplied implies no network call
and verbatim use" fails at this input. -/
theorem credentialResolutionPriority_emptyToken_cex :
    (createSAPAIProvider emptyTokenOpts pj0 gf0 b640 none).oauthCalls = 1
  ∧ (createSAPAIProvider emptyTokenOpts pj0 gf0 b640 none).authToken
      = some "oauth-token" :=
  ⟨rfl, rfl⟩

/-- C1 (amended): whenever a non-empty explicit token is supplied the
resolver performs no OAuth exchange, no fetch and no environment read,
and, if provider creation succeeds, uses the supplied token verbatim; the
OAuth flow runs only when no truthy token is supplied and a truthy
service key is; the environment variable is read only when neither is
truthy. -/
theorem credentialResolutionPriority (options : SAPAIProviderSettings)
    (pj : String → Option SAPAIServiceKey) (gf : FetchRequest → FetchResponse)
    (b64 : String → String) (env : Option String) :
    (∀ t, options.token = some t → t.isEmpty = false →
        (createSAPAIProvider options pj gf b64 env).oauthCalls = 0
      ∧ (createSAPAIProvider options pj gf b64 env).fetchCalls = 0
      ∧ (createSAPAIProvider options pj gf b64 env).envReads = 0
      ∧ (∀ P, (createSAPAIProvider options pj gf b64 env).result = .ok P →
          (createSAPAIProvider options pj gf b64 env).authToken = some t))
  ∧ (0 < (createSAPAIProvider options pj gf b64 env).oauthCalls →
       truthyStr options.token = false ∧ truthyServiceKey options.serviceKey = true)
  ∧ (0 < (createSAPAIProvider options pj gf b64 env).envReads →
       truthyStr options.token = false ∧ truthyServiceKey options.serviceKey = false) := by
  cases hps : parseServiceKeyStep options.serviceKey pj with
  | error e =>
    refine ⟨fun t ht hne => ?_, fun h => ?_, fun h => ?_⟩ <;>
      simp [createSAPAIProvider, hps] at *
  | ok pk =>
    by_cases htr : truthyStr options.token
    · refine ⟨fun t ht hne => ?_, fun h => ?_, fun h => ?_⟩
      · simp [createSAPAIProvider, hps, resolveAuth, ht, truthyStr, hne]
      · simp [createSAPAIProvider, hps, resolveAuth, htr] at h
      · simp [createSAPAIProvider, hps, resolveAuth, htr] at h
    · have htr' : truthyStr options.token = false := by simpa using htr
      cases pk with
      | some sk =>
        refine ⟨fun t ht hne => ?_, fun _ => ?_, fun h => ?_⟩
        · rw [ht] at htr'
          simp [truthyStr, hne] at htr'
        · exact ⟨htr', parse_ok_some_truthy options.serviceKey pj sk hps⟩
        · cases hg : (getOAuthToken sk (options.fetch.getD gf) b64).1 <;>
            simp [createSAPAIProvider, hps, resolveAuth, htr', hg] at h
      | none =>
        refine ⟨fun t ht hne => ?_, fun h => ?_, fun _ => ?_⟩
        · rw [ht] at htr'
          simp [truthyStr, hne] at htr'
        · cases hl : loadApiKey env <;>
            simp [createSAPAIProvider, hps, resolveAuth, htr', hl] at h
        · exact ⟨htr', parse_ok_none_falsy options.serviceKey pj hps⟩

/-- C1 (witness): a concrete non-empty token run performs no OAuth call,
no fetch, no environment read, and resolves to the supplied token. -/
theorem credentialResolutionPriority_witness :
    (createSAPAIProvider cwTokenOpts pj0 gf0 b640 none).oauthCalls = 0
  ∧ (createSAPAIProvider cwTokenOpts pj0 gf0 b640 none).fetchCalls = 0
  ∧ (createSAPAIProvider cwTokenOpts pj0 gf0 b640 none).envReads = 0
  ∧ (createSAPAIProvider cwTokenOpts pj0 gf0 b640 none).authToken = some "tok" :=
  ⟨((credentialResolutionPriority cwTokenOpts pj0 gf0 b640 none).1 "tok" rfl rfl).1,
   ((credentialResolutionPriority cwTokenOpts pj0 gf0 b640 none).1 "tok" rfl rfl).2.1,
   ((credentialResolutionPriority cwTokenOpts pj0 gf0 b640 none).1 "tok" rfl rfl).2.2.1,
   ((credentialResolutionPriority cwTokenOpts pj0 gf0 b640 none).1 "tok" rfl rfl).2.2.2
     (buildProvider cwTokenOpts defBase "tok") rfl⟩

/-- C2: when `completionPath` is absent, the URL handed to the model
collaborator is the resolved base URL followed by
`/inference/deployments/` followed by the supplied-or-default deployment
id followed by `/v2/completion`; when `completionPath` is supplied, the
URL is exactly the base URL with the path concatenated. -/
theorem completionURLResolution (options : SAPAIProviderSettings)
    (pj : String → Option SAPAIServiceKey) (gf : FetchRequest → FetchResponse)
    (b64 : String → String) (env : Option String)
    (P : ProviderModel) (b : String)
    (hP : (createSAPAIProvider options pj gf b64 env).result = .ok P)
    (hb : (createSAPAIProvider options pj gf b64 env).resolvedBaseURL = some b)
    (modelId : String) (settings : Option SAPAISettings) :
    (options.completionPath = none →
      (P.chat modelId settings).baseURL
        = b ++ "/inference/deployments/" ++ options.deploymentId.getD "d65d81e7c077e583"
            ++ "/v2/completion")
  ∧ (∀ p, options.completionPath = some p → (P.chat modelId settings).baseURL = b ++ p) := by
  cases hps : parseServiceKeyStep options.serviceKey pj with
  | error e => simp [createSAPAIProvider, hps] at hP
  | ok pk =>
    cases ha : (resolveAuth options.token pk (options.fetch.getD gf) b64 env).result with
    | error e => simp [createSAPAIProvider, hps, ha] at hP
    | ok tok =>
      simp only [createSAPAIProvider, hps, ha] at hP hb
      obtain rfl : buildProvider options (resolveBaseURL pk options.baseURL) tok = P := by
        simpa using hP
      obtain rfl : resolveBaseURL pk options.baseURL = b := by simpa using hb
      refine ⟨fun hcp => ?_, fun p hcp => ?_⟩
      · simp [buildProvider, createModelFn, resolveCompletionURL, hcp]
      · simp [buildProvider, createModelFn, resolveCompletionURL, hcp]

/-- C2 (witness): concrete runs of both branches — the default
deployment-scoped path and a verbatim completion-path override. -/
theorem completionURLResolution_witness :
    ((buildProvider cwTokenOpts defBase "tok").chat "gpt-4o" none).baseURL
      = defBase ++ "/inference/deployments/" ++ "d65d81e7c077e583" ++ "/v2/completion"
  ∧ ((buildProvider cwPathOpts defBase "tok").chat "gpt-4o" none).baseURL
      = defBase ++ "/v2/completion" :=
  ⟨(completionURLResolution cwTokenOpts pj0 gf0 b640 none
      (buildProvider cwTokenOpts defBase "tok") defBase rfl rfl "gpt-4o" none).1 rfl,
   (completionURLResolution cwPathOpts pj0 gf0 b640 none
      (buildProvider cwPathOpts defBase "tok") defBase rfl rfl "gpt-4o" none).2
     "/v2/completion" rfl⟩

/-- C3: base-URL priority — an explicit `baseURL` (one trailing slash
stripped) wins in every run that gets past service-key parsing; with no
override, a parsed service key yields its `AI_API_URL` with `/v2`
appended; with neither, the hard-coded production default is used. -/
theorem baseURLResolution (options : SAPAIProviderSettings)
    (pj : String → Option SAPAIServiceKey) (gf : FetchRequest → FetchResponse)
    (b64 : String → String) (env : Option String) (pk : Option SAPAIServiceKey)
    (hparse : parseServiceKeyStep options.serviceKey pj = .ok pk) :
    (∀ u, options.baseURL = some u →
      (createSAPAIProvider options pj gf b64 env).resolvedBaseURL
        = some (if u.data.getLast? = some (Char.ofNat 47) then String.mk u.data.dropLast else u))
  ∧ (options.baseURL = none → ∀ sk, pk = some sk →
      (createSAPAIProvider options pj gf b64 env).resolvedBaseURL
        = some (sk.serviceurls.AI_API_URL ++ "/v2"))
  ∧ (options.baseURL = none → pk = none →
      (createSAPAIProvider options pj gf b64 env).resolvedBaseURL
        = some "https://api.ai.prod.eu-central-1.aws.ml.hana.ondemand.com/v2") := by
  have hbase : (createSAPAIProvider options pj gf b64 env).resolvedBaseURL
      = some (resolveBaseURL pk options.baseURL) := by
    simp only [createSAPAIProvider, hparse]
    cases h : (resolveAuth options.token pk (options.fetch.getD gf) b64 env).result <;>
      simp [h]
  refine ⟨fun u hu => ?_, fun hb sk hsk => ?_, fun hb hpk => ?_⟩
  · rw [hbase]
    cases pk <;> simp [resolveBaseURL, withoutTrailingSlash, hu]
  · subst hsk
    rw [hbase]
    simp [resolveBaseURL, withoutTrailingSlash, hb]
  · subst hpk
    rw [hbase]
    simp [resolveBaseURL, withoutTrailingSlash, hb]

/-- C3 (witness): a trailing-slash override is stripped and wins over a
missing service key, and an object service key without an override
yields its API URL with `/v2`. -/
theorem baseURLResolution_witness :
    (createSAPAIProvider slashOpts pj0 gf0 b640 none).resolvedBaseURL
      = some "https://example.com"
  ∧ (createSAPAIProvider skObjOpts pj0 gf0 b640 none).resolvedBaseURL
      = some (skExample.serviceurls.AI_API_URL ++ "/v2") :=
  ⟨((baseURLResolution slashOpts pj0 gf0 b640 none none rfl).1 "https://example.com/" rfl).trans
     (by decide),
   (baseURLResolution skObjOpts pj0 gf0 b640 none (some skExample) rfl).2.1 rfl skExample rfl⟩

/-- C4 (counterexample): the empty string is not valid JSON (the parser
rejects every string here), yet supplying it as `serviceKey` does not
fail provider creation at all — the truthiness test skips parsing and the
run falls through to the environment token and succeeds. -/
theorem invalidServiceKeyJSON_emptyString_cex :
    ((createSAPAIProvider emptyKeyOpts pj0 gf0 b640 (some "envtok")).result).isOk = true
  ∧ (createSAPAIProvider emptyKeyOpts pj0 gf0 b640 (some "envtok")).fetchCalls = 0 :=
  ⟨rfl, rfl⟩

/-- C4 (amended): for every non-empty string supplied as `serviceKey`
that the JSON parser rejects, provider creation fails with the
configuration error "Invalid service key JSON format" and performs no
fetch and no OAuth call. -/
theorem invalidServiceKeyJSON (options : SAPAIProviderSettings)
    (pj : String → Option SAPAIServiceKey) (gf : FetchRequest → FetchResponse)
    (b64 : String → String) (env : Option String)
    (s : String) (hs : options.serviceKey = some (.inl s)) (hne : s.isEmpty = false)
    (hbad : pj s = none) :
    (createSAPAIProvider options pj gf b64 env).result
      = .error (.configurationError "Invalid service key JSON format")
  ∧ (createSAPAIProvider options pj gf b64 env).fetchCalls = 0
  ∧ (createSAPAIProvider options pj gf b64 env).oauthCalls = 0 := by
  have hps : parseServiceKeyStep options.serviceKey pj
      = .error (.configurationError "Invalid service key JSON format") := by
    simp [parseServiceKeyStep, hs, hne, hbad]
  simp [createSAPAIProvider, hps]

/-- C4 (witness): a concrete malformed non-empty service-key string fails
with the fixed configuration error and no network activity. -/
theorem invalidServiceKeyJSON_witness :
    (createSAPAIProvider badJsonOpts pj0 gf0 b640 none).result
      = .error (.configurationError "Invalid service key JSON format")
  ∧ (createSAPAIProvider badJsonOpts pj0 gf0 b640 none).fetchCalls = 0
  ∧ (createSAPAIProvider badJsonOpts pj0 gf0 b640 none).oauthCalls = 0 :=
  invalidServiceKeyJSON badJsonOpts pj0 gf0 b640 none "notjson" rfl rfl rfl

/-- C5: in service-key mode, a non-success token-endpoint response fails
provider creation with an authentication error whose message carries the
status code, status text and response body (and contains "401" when the
status is 401); a success response resolves the token to the
`access_token` field of the response. -/
theorem oauthTokenExchange (options : SAPAIProviderSettings)
    (pj : String → Option SAPAIServiceKey) (gf : FetchRequest → FetchResponse)
    (b64 : String → String) (env : Option String) (sk : SAPAIServiceKey)
    (htok : truthyStr options.token = false)
    (hps : parseServiceKeyStep options.serviceKey pj = .ok (some sk)) :
    (((options.fetch.getD gf) (oauthRequest sk b64)).ok = false →
      (createSAPAIProvider options pj gf b64 env).result
        = .error (.authenticationError
            (oauthFailMsg ((options.fetch.getD gf) (oauthRequest sk b64))))
      ∧ (((options.fetch.getD gf) (oauthRequest sk b64)).status = 401 →
          ∃ p q, oauthFailMsg ((options.fetch.getD gf) (oauthRequest sk b64))
            = p ++ "401" ++ q))
  ∧ (((options.fetch.getD gf) (oauthRequest sk b64)).ok = true →
      (createSAPAIProvider options pj gf b64 env).authToken
        = some ((options.fetch.getD gf) (oauthRequest sk b64)).access_token) := by
  constructor
  · intro hok
    constructor
    · simp [createSAPAIProvider, hps, resolveAuth, htok, getOAuthToken, hok]
    · intro h401
      refine ⟨"Failed to get OAuth access token: ",
        " " ++ ((options.fetch.getD gf) (oauthRequest sk b64)).statusText ++ "\n"
          ++ ((options.fetch.getD gf) (oauthRequest sk b64)).bodyText, ?_⟩
      have hts : toString ((options.fetch.getD gf) (oauthRequest sk b64)).status = "401" := by
        rw [h401]; decide
      have hsplit : ("Failed to get OAuth access token: 401 " : String)
          = "Failed to get OAuth access token: 401" ++ " " := by decide
      simp [oauthFailMsg, hts, String.append_assoc]
      rw [hsplit, String.append_assoc]
  · intro hok
    simp [createSAPAIProvider, hps, resolveAuth, htok, getOAuthToken, hok]

/-- C5 (witness): a concrete 401 response fails creation with the
authentication error for that response, and a concrete success response
resolves the token to its `access_token`. -/
theorem oauthTokenExchange_witness :
    (createSAPAIProvider skObjNoTokOpts pj0 gf401 b640 none).result
      = .error (.authenticationError (oauthFailMsg (gf401 (oauthRequest skExample b640))))
  ∧ (createSAPAIProvider skObjNoTokOpts pj0 gf0 b640 none).authToken = some "oauth-token" :=
  ⟨((oauthTokenExchange skObjNoTokOpts pj0 gf401 b640 none skExample rfl rfl).1 rfl).1,
   (oauthTokenExchange skObjNoTokOpts pj0 gf0 b640 none skExample rfl rfl).2 rfl⟩

/-- C6: the settings merge is override-wins at every top-level key, the
`modelParams` sub-mapping is merged independently with the same
override-wins rule, and on key-disjoint inputs merging the result with
the override again changes nothing (idempotence in the second
argument). -/
theorem settingsMergeSpec (base override : SAPAISettings) :
    (∀ k, topGet (mergeSettings base override) k = optOr (topGet override k) (topGet base k))
  ∧ (∀ k, mpGet (mergeSettings base override) k = optOr (mpGet override k) (mpGet base k))
  ∧ (keysDisjoint base.top override.top = true →
     keysDisjoint (base.modelParams.getD []) (override.modelParams.getD []) = true →
     SettingsEquiv (mergeSettings (mergeSettings base override) override)
       (mergeSettings base override)) := by
  refine ⟨fun k => ?_, fun k => ?_, fun _ _ => ⟨rfl, fun k => ?_, fun k => ?_⟩⟩
  · simpa [topGet, mergeSettings] using lookup_spreadMerge base.top override.top k
  · simpa [mpGet, mergeSettings] using
      lookup_spreadMerge (base.modelParams.getD []) (override.modelParams.getD []) k
  · simp [topGet, mergeSettings, lookup_spreadMerge, optOr_absorb]
  · simp [mpGet, mergeSettings, lookup_spreadMerge, optOr_absorb]

/-- C6 (witness): idempotence of the merge in its second argument on a
concrete pair of bags with disjoint keys at both levels. -/
theorem settingsMergeSpec_witness :
    SettingsEquiv (mergeSettings (mergeSettings mwBase mwOverride) mwOverride)
      (mergeSettings mwBase mwOverride) :=
  (settingsMergeSpec mwBase mwOverride).2.2 (by decide) (by decide)

/-- C7: every invocation of a model handle's header factory yields the
generated map (Bearer token, JSON content type, resource group) extended
with the caller's custom headers, the custom headers winning on any key
collision. -/
theorem headerFactorySpec (options : SAPAIProviderSettings)
    (pj : String → Option SAPAIServiceKey) (gf : FetchRequest → FetchResponse)
    (b64 : String → String) (env : Option String)
    (P : ProviderModel) (tok : String)
    (hP : (createSAPAIProvider options pj gf b64 env).result = .ok P)
    (htok : (createSAPAIProvider options pj gf b64 env).authToken = some tok)
    (modelId : String) (settings : Option SAPAISettings) (k : String) :
    (∀ v, (options.headers.getD []).lookup k = some v →
        (P.chat modelId settings).headers () k = some v)
  ∧ ((options.headers.getD []).lookup k = none →
      (P.chat modelId settings).headers () k
        = [("Authorization", "Bearer " ++ tok),
           ("Content-Type", "application/json"),
           ("ai-resource-group", options.resourceGroup.getD "default")].lookup k) := by
  cases hps : parseServiceKeyStep options.serviceKey pj with
  | error e => simp [createSAPAIProvider, hps] at hP
  | ok pk =>
    cases ha : (resolveAuth options.token pk (options.fetch.getD gf) b64 env).result with
    | error e => simp [createSAPAIProvider, hps, ha] at hP
    | ok tok' =>
      simp only [createSAPAIProvider, hps, ha] at hP htok
      obtain rfl : buildProvider options (resolveBaseURL pk options.baseURL) tok' = P := by
        simpa using hP
      obtain rfl : tok' = tok := by simpa using htok
      refine ⟨fun v hv => ?_, fun hnone => ?_⟩
      · simp [buildProvider, createModelFn, headerMap, generatedHeaders, optOr, hv]
      · simp [buildProvider, createModelFn, headerMap, generatedHeaders, optOr, hnone]

/-- C7 (witness): a custom `Authorization` header wins over the generated
bearer header, and without custom headers the generated content type is
served. -/
theorem headerFactorySpec_witness :
    ((buildProvider cwHdrOpts defBase "tok").chat "gpt-4o" none).headers () "Authorization"
      = some "custom"
  ∧ ((buildProvider cwTokenOpts defBase "tok").chat "gpt-4o" none).headers () "Content-Type"
      = some "application/json" :=
  ⟨(headerFactorySpec cwHdrOpts pj0 gf0 b640 none
      (buildProvider cwHdrOpts defBase "tok") "tok" rfl rfl "gpt-4o" none "Authorization").1
     "custom" rfl,
   ((headerFactorySpec cwTokenOpts pj0 gf0 b640 none
      (buildProvider cwTokenOpts defBase "tok") "tok" rfl rfl "gpt-4o" none "Content-Type").2
     rfl).trans (by decide)⟩

/-- C8 (counterexample): invoking the default zero-configuration handle
with constructor syntax does not fail with an invalid-usage error — with
an environment token present it simply returns a model, because
`createDefaultSAPAI` performs no `new.target` check. -/
theorem constructorInvocationGuard_default_cex :
    (createDefaultSAPAI.call true (some "envtok") "gpt-4o" none).isOk = true := rfl

/-- C8 (amended): the handles produced by the asynchronous and
synchronous creation functions reject constructor invocation with the
invalid-usage error; the default zero-configuration handle performs no
such guard — its constructor-syntax invocation behaves exactly like a
normal call. -/
theorem constructorInvocationGuard (options : SAPAIProviderSettings)
    (pj : String → Option SAPAIServiceKey) (gf : FetchRequest → FetchResponse)
    (b64 : String → String) (env : Option String) (P : ProviderModel)
    (hP : (createSAPAIProvider options pj gf b64 env).result = .ok P)
    (syncOptions : SyncProviderSettings) :
    (∀ modelId settings, P.call true modelId settings
        = .error (.invalidUsageError
            "The SAP AI provider function cannot be called with the new keyword."))
  ∧ (∀ modelId settings, (createSAPAIProviderSync syncOptions).call true modelId settings
        = .error (.invalidUsageError
            "The SAP AI provider function cannot be called with the new keyword."))
  ∧ (∀ isNew env2 modelId settings,
      createDefaultSAPAI.call isNew env2 modelId settings
        = createDefaultSAPAI.chat env2 modelId settings) := by
  refine ⟨?_, fun modelId settings => rfl, fun isNew env2 modelId settings => rfl⟩
  cases hps : parseServiceKeyStep options.serviceKey pj with
  | error e => simp [createSAPAIProvider, hps] at hP
  | ok pk =>
    cases ha : (resolveAuth options.token pk (options.fetch.getD gf) b64 env).result with
    | error e => simp [createSAPAIProvider, hps, ha] at hP
    | ok tok =>
      simp only [createSAPAIProvider, hps, ha] at hP
      obtain rfl : buildProvider options (resolveBaseURL pk options.baseURL) tok = P := by
        simpa using hP
      exact fun modelId settings => rfl

/-- C8 (witness): concrete constructor-syntax invocations of an
async-created and a sync-created handle both fail with the invalid-usage
error. -/
theorem constructorInvocationGuard_witness :
    (buildProvider cwTokenOpts defBase "tok").call true "gpt-4o" none
      = .error (.invalidUsageError
          "The SAP AI provider function cannot be called with the new keyword.")
  ∧ (createSAPAIProviderSync syncOpts0).call true "gpt-4o" none
      = .error (.invalidUsageError
          "The SAP AI provider function cannot be called with the new keyword.") :=
  ⟨(constructorInvocationGuard cwTokenOpts pj0 gf0 b640 none
      (buildProvider cwTokenOpts defBase "tok") rfl syncOpts0).1 "gpt-4o" none,
   (constructorInvocationGuard cwTokenOpts pj0 gf0 b640 none
      (buildProvider cwTokenOpts defBase "tok") rfl syncOpts0).2.1 "gpt-4o" none⟩

/-- C9 (counterexample): with SAP_AI_TOKEN set to the empty string the
variable is set, yet invoking the default handle fails with the
missing-token configuration error, because the guard tests truthiness
rather than presence. -/
theorem defaultProviderLifecycle_emptyEnv_cex :
    createDefaultSAPAI.call false (some "") "gpt-4o" none
      = .error (.configurationError defaultMissingTokenMsg) := rfl

/-- C9 (amended): evaluating the default handle at module load never
fails whatever the environment holds; invoking it (callable form or
`chat`) with SAP_AI_TOKEN unset fails with the configuration error
instructing the caller to set the variable or use explicit
configuration; invoking it with the variable set to a non-empty value
succeeds. -/
theorem defaultProviderLifecycle (env : Option String) (modelId : String)
    (settings : Option SAPAISettings) :
    (sapaiModuleEval env).isOk = true
  ∧ (env = none →
      createDefaultSAPAI.call false env modelId settings
          = .error (.configurationError defaultMissingTokenMsg)
      ∧ createDefaultSAPAI.chat env modelId settings
          = .error (.configurationError defaultMissingTokenMsg))
  ∧ (∀ t, env = some t → t.isEmpty = false →
      (createDefaultSAPAI.call false env modelId settings).isOk = true
      ∧ (createDefaultSAPAI.chat env modelId settings).isOk = true) := by
  refine ⟨rfl, fun he => ?_, fun t ht hne => ?_⟩
  · subst he
    exact ⟨rfl, rfl⟩
  · subst ht
    constructor <;>
      simp [createDefaultSAPAI, defaultCreateModel, truthyStr, hne, createSAPAIProviderSync,
        Except.isOk, Except.toBool]

/-- C9 (witness): a concrete unset environment fails with the
missing-token configuration error, and a concrete non-empty token
succeeds. -/
theorem defaultProviderLifecycle_witness :
    createDefaultSAPAI.call false none "gpt-4o" none
        = .error (.configurationError defaultMissingTokenMsg)
  ∧ (createDefaultSAPAI.call false (some "tok") "gpt-4o" none).isOk = true :=
  ⟨((defaultProviderLifecycle none "gpt-4o" none).2.1 rfl).1,
   ((defaultProviderLifecycle (some "tok") "gpt-4o" none).2.2 "tok" rfl rfl).1⟩

/-- C10: empty-string credentials are treated exactly as absent ones —
a provider-creation run with `token` set to the empty string is equal,
as a whole outcome, to the same run with `token` absent, and likewise
for a `serviceKey` equal to the empty string. -/
theorem emptyCredentialsTreatedAsAbsent (options : SAPAIProviderSettings)
    (pj : String → Option SAPAIServiceKey) (gf : FetchRequest → FetchResponse)
    (b64 : String → String) (env : Option String) :
    createSAPAIProvider { options with token := some "" } pj gf b64 env
      = createSAPAIProvider { options with token := none } pj gf b64 env
  ∧ createSAPAIProvider { options with serviceKey := some (.inl "") } pj gf b64 env
      = createSAPAIProvider { options with serviceKey := none } pj gf b64 env :=
  ⟨rfl, rfl⟩
